import Mathlib

/-!
Shallow embedding of the newslynx-core filter composer and event endpoints
(source files `newslynx/views/api/content_api.py` and
`newslynx/views/api/events_api.py`).

Database tables are modelled as lists of rows, SQLAlchemy queries as list
filters over those rows, and Python exceptions with `Except`.  Committed
state is the `DB` value: a mutation endpoint either returns `.ok` with the
state produced by its final `db.session.commit()`, or `.error` with the
raised exception (no commit, so the state of the caller is unchanged).
-/

namespace Newslynx

/-- Python exceptions raised (deliberately or not) by the embedded endpoints. -/
inductive PyError where
  | keyError : Nat → PyError
  | nameError : String → PyError
  | notFoundError : String → PyError
  | requestError : String → PyError
deriving DecidableEq, Repr

/-- A row of the `tags` table (`Tag` model): org scope, type
(e.g. "impact"), and the category/level facet dimensions. -/
structure TagRow where
  id : Nat
  org_id : Nat
  type : String
  category : String
  level : String
deriving DecidableEq, Repr

/-- A row of the `events` table (`Event` model). -/
structure EventRow where
  id : Nat
  organization_id : Nat
  recipe_id : Option Nat
  status : String
  created : Int
  updated : Int
deriving DecidableEq, Repr

/-- A row of the `things` table (`Thing` model). -/
structure ThingRow where
  id : Nat
  organization_id : Nat
deriving DecidableEq, Repr

/-- A row of the `content` table (`ContentItem` model); only the columns the
filter composer touches are kept. -/
structure ContentItemRow where
  id : Nat
  org_id : Nat
  recipe_id : Option Nat
  type : String
  provenance : String
  url : String
  domain : String
  created : Int
  updated : Int
deriving DecidableEq, Repr

/-- A row of the `recipes` table: provenance metadata pointing at a task and
a sous chef. -/
structure RecipeRow where
  id : Nat
  task_id : Nat
  sous_chef_id : Nat
deriving DecidableEq, Repr

/-- A row of the `tasks` table. -/
structure TaskRow where
  id : Nat
  name : String
deriving DecidableEq, Repr

/-- A row of the `sous_chefs` table. -/
structure SousChefRow where
  id : Nat
  name : String
deriving DecidableEq, Repr

/-- The relational store: entity tables plus the many-to-many association
tables (`newslynx/models/relations.py`), each association row a pair of
foreign keys. -/
structure DB where
  content_items : List ContentItemRow
  events : List EventRow
  tags : List TagRow
  things : List ThingRow
  recipes : List RecipeRow
  tasks : List TaskRow
  sous_chefs : List SousChefRow
  /-- rows `(event_id, tag_id)` of `events_tags`. -/
  events_tags : List (Nat × Nat)
  /-- rows `(thing_id, event_id)` of `things_events`. -/
  things_events : List (Nat × Nat)
  /-- rows `(content_item_id, tag_id)` of `content_items_tags`. -/
  content_items_tags : List (Nat × Nat)
  /-- rows `(content_item_id, event_id)` of `content_items_events`. -/
  content_items_events : List (Nat × Nat)
deriving DecidableEq, Repr

/-- `Event.tags.any(Tag.id.in_(ids))`: EXISTS, joining through `events_tags`
to a `Tag` row whose id is in `ids`. -/
def eventTagsAnyIn (db : DB) (e : EventRow) (ids : List Nat) : Bool :=
  db.tags.any fun t => db.events_tags.contains (e.id, t.id) && ids.contains t.id

/-- `Event.things.any(Thing.id.in_(ids))`. -/
def eventThingsAnyIn (db : DB) (e : EventRow) (ids : List Nat) : Bool :=
  db.things.any fun th => db.things_events.contains (th.id, e.id) && ids.contains th.id

/-- `ContentItem.tags.any(Tag.id.in_(ids))`. -/
def contentTagsAnyIn (db : DB) (c : ContentItemRow) (ids : List Nat) : Bool :=
  db.tags.any fun t => db.content_items_tags.contains (c.id, t.id) && ids.contains t.id

/-- `ContentItem.events.any(Event.id.in_(ids))`. -/
def contentEventsAnyIn (db : DB) (c : ContentItemRow) (ids : List Nat) : Bool :=
  db.events.any fun e => db.content_items_events.contains (c.id, e.id) && ids.contains e.id

/-- SQL `recipe_id IN ids` on a nullable column: NULL never compares true. -/
def optIn (v : Option Nat) (ids : List Nat) : Bool :=
  match v with
  | some r => ids.contains r
  | none => false

/-- SQL `NOT (recipe_id IN ids)` on a nullable column: NULL again never
compares true (three-valued logic). -/
def optNotIn (v : Option Nat) (ids : List Nat) : Bool :=
  match v with
  | some r => !(ids.contains r)
  | none => false

/-- The sub-query
`db.session.query(events_tags.c.event_id).join(Tag).filter_by(org_id=org).filter(Tag.category.in_(cats))`:
the event ids of `events_tags` rows whose joined tag is in the org and has a
category in `cats`. -/
def categoryEventIds (db : DB) (org_id : Nat) (cats : List String) : List Nat :=
  (db.events_tags.filter fun p =>
    db.tags.any fun t => t.id == p.2 && t.org_id == org_id && cats.contains t.category).map
    Prod.fst

/-- The analogous sub-query for `Tag.level.in_(lvls)`. -/
def levelEventIds (db : DB) (org_id : Nat) (lvls : List String) : List Nat :=
  (db.events_tags.filter fun p =>
    db.tags.any fun t => t.id == p.2 && t.org_id == org_id && lvls.contains t.level).map
    Prod.fst

/-- `db.session.query(Recipe.id).filter(Recipe.sous_chef.has(SousChef.name.in_(names)))`. -/
def sousChefRecipeIds (db : DB) (names : List String) : List Nat :=
  (db.recipes.filter fun r =>
    db.sous_chefs.any fun s => s.id == r.sous_chef_id && names.contains s.name).map
    fun r => r.id

/-- `db.session.query(Recipe.id).filter(Recipe.task.has(Task.name.in_(names)))`. -/
def taskRecipeIds (db : DB) (names : List String) : List Nat :=
  (db.recipes.filter fun r =>
    db.tasks.any fun t => t.id == r.task_id && names.contains t.name).map
    fun r => r.id

/-- Python `set.add` on an insertion-ordered list model of a `set`. -/
def pySetAdd (s : List Nat) (e : Nat) : List Nat :=
  if s.contains e then s else s ++ [e]

/-- `for e in xs: s.add(e)`. -/
def pySetAddAll (s : List Nat) (xs : List Nat) : List Nat :=
  xs.foldl pySetAdd s

/-- Python `set.remove`: raises `KeyError` when the element is absent. -/
def pySetRemove (s : List Nat) (e : Nat) : Except PyError (List Nat) :=
  if s.contains e then .ok (s.erase e) else .error (.keyError e)

/-- `for e in xs: s.remove(e)`, propagating the first `KeyError`. -/
def pySetRemoveAll (s : List Nat) (xs : List Nat) : Except PyError (List Nat) :=
  match xs with
  | [] => .ok s
  | e :: rest =>
    match pySetRemove s e with
    | .ok s2 => pySetRemoveAll s2 rest
    | .error err => .error err

/-- The keyword arguments consumed by `apply_content_item_filters`.  Full-text
search and the URL regex operator are external collaborators (Postgres); they
are carried as abstract predicates alongside the raw parameters. -/
structure ContentFilterKw where
  org_id : Nat
  search_query : Option String
  sort_field : String
  search_vector : String
  searchMatch : ContentItemRow → Bool
  type : String
  provenance : Option String
  url : Option String
  url_regex : Option String
  regexMatch : String → Bool
  domain : Option String
  created_after : Option Int
  created_before : Option Int
  updated_after : Option Int
  updated_before : Option Int
  include_recipes : List Nat
  exclude_recipes : List Nat
  include_categories : List String
  exclude_categories : List String
  include_levels : List String
  exclude_levels : List String
  include_tags : List Nat
  exclude_tags : List Nat
  include_sous_chefs : List String
  exclude_sous_chefs : List String

/-- A conditionally applied query restriction: `if cond: q = q.filter(p)`. -/
def condFilter (b : Bool) (p : α → Bool) (q : List α) : List α :=
  if b then q.filter p else q

/-- `apply_content_item_filters`, lines 34-97: the org scope, search, type,
provenance, url, url-regex, domain, date and direct recipe filters. -/
def contentScalarFilters (kw : ContentFilterKw) (q : List ContentItemRow) :
    List ContentItemRow :=
  let q := q.filter fun c => c.org_id == kw.org_id
  let q := condFilter kw.search_query.isSome kw.searchMatch q
  let q := condFilter (kw.type != "all") (fun c => c.type == kw.type) q
  let q := condFilter kw.provenance.isSome (fun c => kw.provenance == some c.provenance) q
  let q := condFilter kw.url.isSome (fun c => kw.url == some c.url) q
  let q := condFilter kw.url_regex.isSome (fun c => kw.regexMatch c.url) q
  let q := condFilter kw.domain.isSome (fun c => kw.domain == some c.domain) q
  let q := condFilter kw.created_after.isSome
    (fun c => match kw.created_after with | some t => decide (t ≤ c.created) | none => true) q
  let q := condFilter kw.created_before.isSome
    (fun c => match kw.created_before with | some t => decide (c.created ≤ t) | none => true) q
  let q := condFilter kw.updated_after.isSome
    (fun c => match kw.updated_after with | some t => decide (t ≤ c.updated) | none => true) q
  let q := condFilter kw.updated_before.isSome
    (fun c => match kw.updated_before with | some t => decide (c.updated ≤ t) | none => true) q
  let q := condFilter (kw.include_recipes.length != 0)
    (fun c => optIn c.recipe_id kw.include_recipes) q
  let q := condFilter (kw.exclude_recipes.length != 0)
    (fun c => optNotIn c.recipe_id kw.exclude_recipes) q
  q

/-- Lines 101-114: the include-categories filter.  Resolves the matching event
ids, adds each to the accumulator `all_event_ids`, and restricts to items
having one of those events. -/
def categoriesIncludeStep (db : DB) (kw : ContentFilterKw)
    (q : List ContentItemRow) (acc : List Nat) : List ContentItemRow × List Nat :=
  if kw.include_categories.length != 0 then
    let event_ids := categoryEventIds db kw.org_id kw.include_categories
    (q.filter fun c => contentEventsAnyIn db c event_ids, pySetAddAll acc event_ids)
  else (q, acc)

/-- Lines 116-126: the exclude-categories filter.  Resolves the matching event
ids, removes each from the accumulator with `set.remove` (which raises
`KeyError` when the id is absent), and then - exactly as in the source -
applies the same positive `ContentItem.events.any(Event.id.in_(event_ids))`
restriction used for inclusion, not its negation. -/
def categoriesExcludeStep (db : DB) (kw : ContentFilterKw)
    (q : List ContentItemRow) (acc : List Nat) :
    Except PyError (List ContentItemRow × List Nat) :=
  if kw.exclude_categories.length != 0 then
    let event_ids := categoryEventIds db kw.org_id kw.exclude_categories
    match pySetRemoveAll acc event_ids with
    | .ok acc2 => .ok (q.filter fun c => contentEventsAnyIn db c event_ids, acc2)
    | .error err => .error err
  else .ok (q, acc)

/-- Lines 128-139: the include-levels filter (same shape as categories). -/
def levelsIncludeStep (db : DB) (kw : ContentFilterKw)
    (q : List ContentItemRow) (acc : List Nat) : List ContentItemRow × List Nat :=
  if kw.include_levels.length != 0 then
    let event_ids := levelEventIds db kw.org_id kw.include_levels
    (q.filter fun c => contentEventsAnyIn db c event_ids, pySetAddAll acc event_ids)
  else (q, acc)

/-- Lines 141-153: the exclude-levels filter (same shape - and same positive
restriction plus `set.remove` - as exclude-categories). -/
def levelsExcludeStep (db : DB) (kw : ContentFilterKw)
    (q : List ContentItemRow) (acc : List Nat) :
    Except PyError (List ContentItemRow × List Nat) :=
  if kw.exclude_levels.length != 0 then
    let event_ids := levelEventIds db kw.org_id kw.exclude_levels
    match pySetRemoveAll acc event_ids with
    | .ok acc2 => .ok (q.filter fun c => contentEventsAnyIn db c event_ids, acc2)
    | .error err => .error err
  else .ok (q, acc)

/-- Lines 156-162: the direct tag filters; exclusion here really is negated. -/
def contentTagFilters (db : DB) (kw : ContentFilterKw) (q : List ContentItemRow) :
    List ContentItemRow :=
  let q := condFilter (kw.include_tags.length != 0)
    (fun c => contentTagsAnyIn db c kw.include_tags) q
  let q := condFilter (kw.exclude_tags.length != 0)
    (fun c => !(contentTagsAnyIn db c kw.exclude_tags)) q
  q

/-- Lines 166-180: the sous-chef filters, resolving recipe ids through the
sous-chef name join and then filtering `recipe_id` like the recipe filter. -/
def contentSousChefFilters (db : DB) (kw : ContentFilterKw) (q : List ContentItemRow) :
    List ContentItemRow :=
  let q := condFilter (kw.include_sous_chefs.length != 0)
    (fun c => optIn c.recipe_id (sousChefRecipeIds db kw.include_sous_chefs)) q
  let q := condFilter (kw.exclude_sous_chefs.length != 0)
    (fun c => optNotIn c.recipe_id (sousChefRecipeIds db kw.exclude_sous_chefs)) q
  q

/-- `apply_content_item_filters` (content_api.py lines 28-182): the whole
content-item filter composition, returning the narrowed query together with
the accumulated `all_event_ids`, or the uncaught Python exception. -/
def apply_content_item_filters (db : DB) (q : List ContentItemRow) (kw : ContentFilterKw) :
    Except PyError (List ContentItemRow × List Nat) :=
  let q1 := contentScalarFilters kw q
  let s1 := categoriesIncludeStep db kw q1 []
  match categoriesExcludeStep db kw s1.1 s1.2 with
  | .error err => .error err
  | .ok s2 =>
    let s3 := levelsIncludeStep db kw s2.1 s2.2
    match levelsExcludeStep db kw s3.1 s3.2 with
    | .error err => .error err
    | .ok s4 =>
      .ok (contentSousChefFilters db kw (contentTagFilters db kw s4.1), s4.2)

/-- The keyword arguments consumed by `apply_event_filters`. -/
structure EventFilterKw where
  org : Nat
  search_query : Option String
  searchMatch : EventRow → Bool
  status : String
  created_after : Option Int
  created_before : Option Int
  updated_after : Option Int
  updated_before : Option Int
  include_recipes : List Nat
  exclude_recipes : List Nat
  include_tags : List Nat
  exclude_tags : List Nat
  include_things : List Nat
  exclude_things : List Nat
  include_tasks : List String
  exclude_tasks : List String

/-- `apply_event_filters` (events_api.py lines 22-79). -/
def apply_event_filters (db : DB) (q : List EventRow) (kw : EventFilterKw) :
    List EventRow :=
  let q := q.filter fun e => e.organization_id == kw.org
  let q := condFilter kw.search_query.isSome kw.searchMatch q
  let q := condFilter (kw.status != "all") (fun e => e.status == kw.status) q
  let q := condFilter kw.created_after.isSome
    (fun e => match kw.created_after with | some t => decide (t ≤ e.created) | none => true) q
  let q := condFilter kw.created_before.isSome
    (fun e => match kw.created_before with | some t => decide (e.created ≤ t) | none => true) q
  let q := condFilter kw.updated_after.isSome
    (fun e => match kw.updated_after with | some t => decide (t ≤ e.updated) | none => true) q
  let q := condFilter kw.updated_before.isSome
    (fun e => match kw.updated_before with | some t => decide (e.updated ≤ t) | none => true) q
  let q := condFilter (kw.include_recipes.length != 0)
    (fun e => optIn e.recipe_id kw.include_recipes) q
  let q := condFilter (kw.exclude_recipes.length != 0)
    (fun e => optNotIn e.recipe_id kw.exclude_recipes) q
  let q := condFilter (kw.include_tags.length != 0)
    (fun e => eventTagsAnyIn db e kw.include_tags) q
  let q := condFilter (kw.exclude_tags.length != 0)
    (fun e => !(eventTagsAnyIn db e kw.exclude_tags)) q
  let q := condFilter (kw.include_things.length != 0)
    (fun e => eventThingsAnyIn db e kw.include_things) q
  let q := condFilter (kw.exclude_things.length != 0)
    (fun e => !(eventThingsAnyIn db e kw.exclude_things)) q
  let q := condFilter (kw.include_tasks.length != 0)
    (fun e => optIn e.recipe_id (taskRecipeIds db kw.include_tasks)) q
  let q := condFilter (kw.exclude_tasks.length != 0)
    (fun e => optNotIn e.recipe_id (taskRecipeIds db kw.exclude_tasks)) q
  q

/-- The `e.tag_ids` property: `[t.id for t in e.tags]`, the ids reached from
the event through `events_tags` rows whose tag row exists. -/
def event_tag_ids (db : DB) (eid : Nat) : List Nat :=
  (db.events_tags.filter fun p => p.1 == eid && db.tags.any fun t => t.id == p.2).map
    Prod.snd

/-- The `e.thing_ids` property: `[t.id for t in e.things]`. -/
def event_thing_ids (db : DB) (eid : Nat) : List Nat :=
  (db.things_events.filter fun p => p.2 == eid && db.things.any fun t => t.id == p.1).map
    Prod.fst

/-- `db.session.add(e)` for an already-loaded event: at commit the row with
the id of the event is replaced by the modified object. -/
def replaceEvent (db : DB) (e : EventRow) : DB :=
  { db with events := db.events.map fun x => if x.id == e.id then e else x }

/-- The request body of `event_update`: the listified `tag_ids` / `thing_ids`
arguments plus the `req_data` column values this embedding tracks - the
requested `status`, and an `organization_id` so a caller attempting to move
the event to another organization can be expressed. -/
structure UpdateRequest where
  tag_ids : List Nat
  thing_ids : List Nat
  status : Option String
  organization_id : Option Nat
deriving Repr

/-- The `for thing, tag in zip(things, tags)` loop of `event_update`
(lines 374-384): walks the positional pairs, collecting the thing ids and tag
ids to append while skipping ids already associated (or already collected),
and raising on the first paired tag whose type is not "impact".  The
accumulators start empty; `zip` silently drops the tail of the longer list. -/
def assocLoop (db : DB) (eid : Nat) (pairs : List (ThingRow × TagRow))
    (ths tgs : List Nat) : Except PyError (List Nat × List Nat) :=
  match pairs with
  | [] => .ok (ths, tgs)
  | (thing, tag) :: rest =>
    let ths2 := if (event_thing_ids db eid ++ ths).contains thing.id then ths
      else ths ++ [thing.id]
    if tag.type != "impact" then
      .error (.requestError "Events can only be assigned Impact Tags.")
    else
      let tgs2 := if (event_tag_ids db eid ++ tgs).contains tag.id then tgs
        else tgs ++ [tag.id]
      assocLoop db eid rest ths2 tgs2

/-- `tags = Tag.query.filter(Tag.id.in_(tag_ids)).all()` (line 329). -/
def reqTags (db : DB) (req : UpdateRequest) : List TagRow :=
  db.tags.filter fun t => req.tag_ids.contains t.id

/-- `things = Thing.query.filter(Thing.id.in_(thing_ids)).all()` (line 334). -/
def reqThings (db : DB) (req : UpdateRequest) : List ThingRow :=
  db.things.filter fun t => req.thing_ids.contains t.id

/-- The `req_data` setattr loop (lines 349-364) on the approval branch: status
is forced to "approved" (line 357), the tracked `organization_id` column is
applied when supplied, and `updated` is stamped (line 360). -/
def setattrApprove (e : EventRow) (req : UpdateRequest) (now : Int) : EventRow :=
  { e with
    status := "approved"
    organization_id := req.organization_id.getD e.organization_id
    updated := now }

/-- The `req_data` setattr loop on the non-approval branch: the requested
status (if any) and `organization_id` are applied, `updated` is stamped. -/
def setattrPlain (e : EventRow) (req : UpdateRequest) (now : Int) : EventRow :=
  { e with
    status := req.status.getD e.status
    organization_id := req.organization_id.getD e.organization_id
    updated := now }

/-- Line 368: `e.organization_id = org.id`, re-asserted after the setattrs so
no request can move the event to another organization. -/
def overrideOrg (e : EventRow) (org_id : Nat) : EventRow :=
  { e with organization_id := org_id }

/-- The approval branch of `event_update` (lines 326-337 and 355-388):
resolves the supplied tag and thing rows (failing when either resolves to
nothing), applies the column updates with status forced to "approved", runs
the zip association loop, and commits the appended associations. -/
def approveBranch (db : DB) (org_id : Nat) (e : EventRow) (req : UpdateRequest)
    (now : Int) : Except PyError (DB × EventRow) :=
  if (reqTags db req).length == 0 then
    .error (.requestError
      ("Tag(s) with ID(s) " ++ toString req.tag_ids ++ " do(es) not exist."))
  else if (reqThings db req).length == 0 then
    .error (.requestError
      ("Thing(s) with ID(s) " ++ toString req.tag_ids ++ " do(es) not exist."))
  else
    match assocLoop db e.id ((reqThings db req).zip (reqTags db req)) [] [] with
    | .error err => .error err
    | .ok nts =>
      .ok
        ({ replaceEvent db (overrideOrg (setattrApprove e req now) org_id) with
            events_tags := db.events_tags ++ nts.2.map fun t => (e.id, t)
            things_events := db.things_events ++ nts.1.map fun t => (t, e.id) },
          overrideOrg (setattrApprove e req now) org_id)

/-- `event_update` (events_api.py lines 303-391).  Fetches the event scoped to
the authenticated org; takes the approval branch when both id lists are
non-empty; rejects an explicit request for "approved" status without them;
otherwise applies the column updates directly.  Errors abort before
`db.session.commit()`, so they leave the store unchanged. -/
def event_update (db : DB) (org_id event_id : Nat) (req : UpdateRequest)
    (now : Int) : Except PyError (DB × EventRow) :=
  match db.events.find? fun e => e.id == event_id && e.organization_id == org_id with
  | none => .error (.requestError
      ("An Event with ID " ++ toString event_id ++ " does not exist."))
  | some e =>
    if req.tag_ids.length != 0 && req.thing_ids.length != 0 then
      approveBranch db org_id e req now
    else if e.status != "approved" && req.status == some "approved" then
      .error (.requestError
        "To approve an event you must assign it to one or more Things or Tags by using the \"thing_ids\" and \"tag_ids\" fields.")
    else
      .ok (replaceEvent db (overrideOrg (setattrPlain e req now) org_id),
        overrideOrg (setattrPlain e req now) org_id)

/-- `event_delete` (lines 394-427): soft delete.  The event row stays; its
`events_tags` and `things_events` association rows are deleted, the status is
set to "deleted" and the timestamp updated. -/
def event_delete (db : DB) (org_id event_id : Nat) (now : Int) :
    Except PyError (DB × EventRow) :=
  match db.events.find? fun e => e.id == event_id && e.organization_id == org_id with
  | none => .error (.requestError
      ("An Event with ID " ++ toString event_id ++ " does not exist."))
  | some e =>
    let db2 : DB := { db with
      events_tags := db.events_tags.filter fun p => !(p.1 == event_id)
      things_events := db.things_events.filter fun p => !(p.2 == event_id) }
    let e2 : EventRow := { e with status := "deleted", updated := now }
    .ok (replaceEvent db2 e2, e2)

/-- `event_add_tag` (lines 430-463): requires the event to be approved, the
tag to exist in the org, and the tag to be of type "impact"; skips the append
when the association already exists. -/
def event_add_tag (db : DB) (org_id event_id tag_id : Nat) (now : Int) :
    Except PyError (DB × EventRow) :=
  match db.events.find? fun e => e.id == event_id && e.organization_id == org_id with
  | none => .error (.requestError
      ("An Event with ID " ++ toString event_id ++ " does not exist."))
  | some e =>
    if e.status != "approved" then
      .error (.requestError
        "You must first approve an Event before adding additional Tags.")
    else
      match db.tags.find? fun t => t.id == tag_id && t.org_id == org_id with
      | none => .error (.requestError
          ("Tag with ID " ++ toString tag_id ++ " does not exist."))
      | some tag =>
        if tag.type != "impact" then
          .error (.requestError "Events can only be assigned Impact Tags.")
        else
          let db2 : DB :=
            if (event_tag_ids db event_id).contains tag.id then db
            else { db with events_tags := db.events_tags ++ [(event_id, tag.id)] }
          let e2 : EventRow := { e with updated := now }
          .ok (replaceEvent db2 e2, e2)

/-- `event_delete_tag` (lines 466-492): fails when the association is absent;
otherwise removes it.  Note there is no status check on the event here. -/
def event_delete_tag (db : DB) (org_id event_id tag_id : Nat) (now : Int) :
    Except PyError (DB × EventRow) :=
  match db.events.find? fun e => e.id == event_id && e.organization_id == org_id with
  | none => .error (.requestError
      ("An Event with ID " ++ toString event_id ++ " does not exist."))
  | some e =>
    if !((event_tag_ids db event_id).contains tag_id) then
      .error (.requestError
        ("An Event with ID " ++ toString event_id ++
          " does not currently have an association with a Tag with ID " ++
          toString tag_id))
    else
      let db2 : DB := { db with
        events_tags := db.events_tags.filter fun p => !(p.1 == event_id && p.2 == tag_id) }
      let e2 : EventRow := { e with updated := now }
      .ok (replaceEvent db2 e2, e2)

/-- `event_add_thing` (lines 495-524): requires the event to be approved and
the thing to exist in the org; skips the append when already associated. -/
def event_add_thing (db : DB) (org_id event_id thing_id : Nat) (now : Int) :
    Except PyError (DB × EventRow) :=
  match db.events.find? fun e => e.id == event_id && e.organization_id == org_id with
  | none => .error (.requestError
      ("An Event with ID " ++ toString event_id ++ " does not exist."))
  | some e =>
    if e.status != "approved" then
      .error (.requestError
        "You must first approve an Event before adding additional Things.")
    else
      match db.things.find? fun t => t.id == thing_id && t.organization_id == org_id with
      | none => .error (.requestError
          ("Thing with ID " ++ toString thing_id ++ " does not exist."))
      | some thing =>
        let db2 : DB :=
          if (event_thing_ids db event_id).contains thing.id then db
          else { db with things_events := db.things_events ++ [(thing.id, event_id)] }
        let e2 : EventRow := { e with updated := now }
        .ok (replaceEvent db2 e2, e2)

/-- `event_delete_thing` (lines 527-553): fails when the association is
absent; otherwise removes it.  As with `event_delete_tag`, no status check. -/
def event_delete_thing (db : DB) (org_id event_id thing_id : Nat) (now : Int) :
    Except PyError (DB × EventRow) :=
  match db.events.find? fun e => e.id == event_id && e.organization_id == org_id with
  | none => .error (.requestError
      ("An Event with ID " ++ toString event_id ++ " does not exist."))
  | some e =>
    if !((event_thing_ids db event_id).contains thing_id) then
      .error (.requestError
        ("An Event with ID " ++ toString event_id ++
          " does not currently have an association with a Thing with ID " ++
          toString thing_id))
    else
      let db2 : DB := { db with
        things_events := db.things_events.filter fun p => !(p.1 == thing_id && p.2 == event_id) }
      let e2 : EventRow := { e with updated := now }
      .ok (replaceEvent db2 e2, e2)

/-- The local integer variables bound in the body of `content_items`
(content_api.py lines 376-390): only the route argument `content_item_id`.
The not-found message is formatted from the name `event_id`, which is not
among them, so evaluating the message argument raises a `NameError`. -/
def contentItemsLocals (content_item_id : Nat) : List (String × Nat) :=
  [("content_item_id", content_item_id)]

/-- `content_items` (content_api.py lines 376-390): fetch an individual
content item in the authenticated org; on a miss the code builds a
`NotFoundError` message by formatting the unbound name `event_id`. -/
def content_items (db : DB) (org_id content_item_id : Nat) :
    Except PyError ContentItemRow :=
  match db.content_items.find? fun c => c.id == content_item_id && c.org_id == org_id with
  | some c => .ok c
  | none =>
    match (contentItemsLocals content_item_id).lookup "event_id" with
    | some v => .error (.notFoundError
        ("An ContentItem with ID " ++ toString v ++ " does not exist."))
    | none => .error (.nameError "event_id")

/-- Whether an endpoint call returned a success response. -/
def updateOk (r : Except PyError (DB × EventRow)) : Bool :=
  match r with
  | .ok _ => true
  | .error _ => false

/-- The association the spec speaks about for category exclusion: the content
item is linked to an event carrying a tag of the given category. -/
def contentAssocCategory (db : DB) (c : ContentItemRow) (cat : String) : Bool :=
  db.content_items_events.any fun p => p.1 == c.id &&
    (db.events_tags.any fun r => r.1 == p.2 &&
      db.tags.any fun t => t.id == r.2 && t.category == cat)

/-- An empty store, the base for the concrete scenarios below. -/
def emptyDB : DB := ⟨[], [], [], [], [], [], [], [], [], [], []⟩

/-- Content-search keyword arguments with every optional filter off. -/
def emptyContentKw : ContentFilterKw :=
  { org_id := 1, search_query := none, sort_field := "created", search_vector := "all",
    searchMatch := fun _ => true, type := "all", provenance := none, url := none,
    url_regex := none, regexMatch := fun _ => true, domain := none,
    created_after := none, created_before := none,
    updated_after := none, updated_before := none,
    include_recipes := [], exclude_recipes := [],
    include_categories := [], exclude_categories := [],
    include_levels := [], exclude_levels := [],
    include_tags := [], exclude_tags := [],
    include_sous_chefs := [], exclude_sous_chefs := [] }

/-- Event-search keyword arguments with the default status and every optional
filter off. -/
def emptyEventKw : EventFilterKw :=
  { org := 1, search_query := none, searchMatch := fun _ => true, status := "pending",
    created_after := none, created_before := none,
    updated_after := none, updated_before := none,
    include_recipes := [], exclude_recipes := [],
    include_tags := [], exclude_tags := [],
    include_things := [], exclude_things := [],
    include_tasks := [], exclude_tasks := [] }

/-- A pending event of organization 1. -/
def evPending : EventRow := ⟨100, 1, none, "pending", 0, 0⟩

/-- An impact tag of organization 1 with category "X". -/
def tagImpact : TagRow := ⟨1, 1, "impact", "X", "silver"⟩

/-- A non-impact tag of organization 1. -/
def tagOther : TagRow := ⟨2, 1, "other", "X", "silver"⟩

/-- Things of organization 1. -/
def thing10 : ThingRow := ⟨10, 1⟩

def thing11 : ThingRow := ⟨11, 1⟩

/-- A content item of organization 1. -/
def ci50 : ContentItemRow := ⟨50, 1, none, "article", "recipe", "u", "d", 0, 0⟩

/-- Store for the C1/C2 filter scenarios: content item 50 is linked to event
100, which carries the category-"X" impact tag. -/
def dbFilters : DB :=
  { emptyDB with
    content_items := [ci50], events := [evPending], tags := [tagImpact],
    events_tags := [(100, 1)], content_items_events := [(50, 100)] }

/-- Only an exclude-categories filter, matching the existing tag. -/
def kwExclX : ContentFilterKw := { emptyContentKw with exclude_categories := ["X"] }

/-- Only an exclude-categories filter, matching nothing. -/
def kwExclY : ContentFilterKw := { emptyContentKw with exclude_categories := ["Y"] }

/-- Include and exclude the same category. -/
def kwInclExclX : ContentFilterKw :=
  { emptyContentKw with include_categories := ["X"], exclude_categories := ["X"] }

/-- Event-search keyword arguments filtering on tag id 1. -/
def kwEvTag1 : EventFilterKw := { emptyEventKw with include_tags := [1] }

/-- Store for the C3 counterexample: the non-impact tag 2 sits past the end of
the zipped pairs because only one thing is supplied. -/
def dbC3 : DB :=
  { emptyDB with events := [evPending], tags := [tagImpact, tagOther], things := [thing10] }

def reqC3 : UpdateRequest := ⟨[1, 2], [10], none, none⟩

/-- Store for the C4 counterexample: two things, one tag. -/
def dbC4 : DB :=
  { emptyDB with events := [evPending], tags := [tagImpact], things := [thing10, thing11] }

def reqC4 : UpdateRequest := ⟨[1], [10, 11], none, none⟩

/-- Store for the C4 witness: one thing, one impact tag. -/
def dbW4 : DB :=
  { emptyDB with events := [evPending], tags := [tagImpact], things := [thing10] }

def reqW4 : UpdateRequest := ⟨[1], [10], none, none⟩

/-- Request asking for approval while supplying no id lists (C5). -/
def reqW5 : UpdateRequest := ⟨[], [], some "approved", none⟩

/-- Store for the C6/C7 scenarios: a pending event with a tag association. -/
def dbPendingTagged : DB :=
  { emptyDB with events := [evPending], tags := [tagImpact], events_tags := [(100, 1)] }

/-- Store for the C8 scenario: a content item exists, but not with ID 7. -/
def dbC8 : DB := { emptyDB with content_items := [ci50] }

/-- Request trying to move the event to organization 999 (C9). -/
def reqW9 : UpdateRequest := ⟨[], [], none, some 999⟩

/-- The event row produced by the C9 witness update. -/
def evW9res : EventRow := ⟨100, 1, none, "pending", 0, 5⟩

/-- Store for the C9 witness. -/
def dbW9 : DB := { emptyDB with events := [evPending] }

/-- The store produced by the C9 witness update. -/
def dbW9res : DB := { dbW9 with events := [evW9res] }

/-- Store for the C10 counterexample: the supplied tag and thing exist but the
tag is not an impact tag. -/
def dbC10 : DB :=
  { emptyDB with events := [evPending], tags := [tagOther], things := [thing10] }

def reqC10 : UpdateRequest := ⟨[2], [10], none, none⟩

/-- Request for the C10 witness: both id lists supplied and a status other
than "approved" requested. -/
def reqW10 : UpdateRequest := ⟨[1], [10], some "pending", none⟩

/-- The event row produced by the C10 witness update. -/
def evW10res : EventRow := ⟨100, 1, none, "approved", 0, 5⟩

/-- The store produced by the C10 witness update. -/
def dbW10res : DB :=
  { dbW4 with events := [evW10res], events_tags := [(100, 1)], things_events := [(10, 100)] }

/-- The event row produced by the C3 counterexample update. -/
def evC3res : EventRow := ⟨100, 1, none, "approved", 0, 5⟩

/-- The store produced by the C3 counterexample update: only the zipped pair
(thing 10, tag 1) was associated; the supplied non-impact tag 2 was ignored. -/
def dbC3res : DB :=
  { dbC3 with events := [evC3res], events_tags := [(100, 1)], things_events := [(10, 100)] }

/-- The event row produced by the C4 counterexample update. -/
def evC4res : EventRow := ⟨100, 1, none, "approved", 0, 5⟩

/-- The store produced by the C4 counterexample update: thing 11, though
supplied and existing, was not associated (the zip dropped it). -/
def dbC4res : DB :=
  { dbC4 with events := [evC4res], events_tags := [(100, 1)], things_events := [(10, 100)] }

/-- Store for the C3 witness: the single zipped pair carries a non-impact tag. -/
def dbW3 : DB :=
  { emptyDB with events := [evPending], tags := [tagOther], things := [thing10] }

def reqW3 : UpdateRequest := ⟨[2], [10], none, none⟩

theorem condFilter_mem {α : Type} {b : Bool} {p : α → Bool} {q : List α} {x : α}
    (h : x ∈ condFilter b p q) : x ∈ q ∧ (b = true → p x = true) := by
  cases b with
  | false => exact ⟨by simpa [condFilter] using h, fun hb => Bool.noConfusion hb⟩
  | true =>
    rcases List.mem_filter.mp (by simpa [condFilter] using h) with ⟨h1, h2⟩
    exact ⟨h1, fun _ => h2⟩

theorem condFilter_nil {α : Type} (b : Bool) (p : α → Bool) :
    condFilter b p [] = [] := by cases b <;> simp [condFilter]

theorem optNotIn_optIn {v : Option Nat} {ids : List Nat}
    (h : optNotIn v ids = true) : optIn v ids = false := by
  cases v with
  | none => rfl
  | some r => simpa [optIn, optNotIn] using h

theorem length_bne_zero {α : Type} {l : List α} (h : l ≠ []) :
    (l.length != 0) = true := by
  cases l with
  | nil => exact absurd rfl h
  | cons a t => rfl

theorem mem_apply_event_filters {db : DB} {q : List EventRow} {kw : EventFilterKw}
    {e : EventRow} (h : e ∈ apply_event_filters db q kw) :
    e ∈ q ∧ e.organization_id = kw.org ∧
    (kw.status ≠ "all" → e.status = kw.status) ∧
    (kw.include_recipes ≠ [] → optIn e.recipe_id kw.include_recipes = true) ∧
    (kw.exclude_recipes ≠ [] → optIn e.recipe_id kw.exclude_recipes = false) ∧
    (kw.include_tags ≠ [] → eventTagsAnyIn db e kw.include_tags = true) ∧
    (kw.exclude_tags ≠ [] → eventTagsAnyIn db e kw.exclude_tags = false) ∧
    (kw.include_things ≠ [] → eventThingsAnyIn db e kw.include_things = true) ∧
    (kw.exclude_things ≠ [] → eventThingsAnyIn db e kw.exclude_things = false) := by
  unfold apply_event_filters at h
  have hT2 := condFilter_mem h
  have hT1 := condFilter_mem hT2.1
  have hH2 := condFilter_mem hT1.1
  have hH1 := condFilter_mem hH2.1
  have hG2 := condFilter_mem hH1.1
  have hG1 := condFilter_mem hG2.1
  have hR2 := condFilter_mem hG1.1
  have hR1 := condFilter_mem hR2.1
  have hD4 := condFilter_mem hR1.1
  have hD3 := condFilter_mem hD4.1
  have hD2 := condFilter_mem hD3.1
  have hD1 := condFilter_mem hD2.1
  have hStat := condFilter_mem hD1.1
  have hSearch := condFilter_mem hStat.1
  have hOrg := List.mem_filter.mp hSearch.1
  refine ⟨hOrg.1, eq_of_beq hOrg.2, ?_, ?_, ?_, ?_, ?_, ?_, ?_⟩
  · exact fun hs => eq_of_beq (hStat.2 (bne_iff_ne.mpr hs))
  · exact fun hs => hR1.2 (length_bne_zero hs)
  · exact fun hs => optNotIn_optIn (hR2.2 (length_bne_zero hs))
  · exact fun hs => hG1.2 (length_bne_zero hs)
  · exact fun hs => by simpa using hG2.2 (length_bne_zero hs)
  · exact fun hs => hH1.2 (length_bne_zero hs)
  · exact fun hs => by simpa using hH2.2 (length_bne_zero hs)

theorem replaceEvent_eq_of_id {db : DB} {e x : EventRow}
    (hx : x ∈ (replaceEvent db e).events) (hid : x.id = e.id) : x = e := by
  rcases List.mem_map.mp hx with ⟨y, hy, hxy⟩
  by_cases hc : (y.id == e.id) = true
  · rw [if_pos hc] at hxy; exact hxy.symm
  · rw [if_neg hc] at hxy
    subst hxy
    exact absurd (beq_iff_eq.mpr hid) hc

theorem mem_replaceEvent_self {db : DB} {e e2 : EventRow}
    (he : e ∈ db.events) (hid : e2.id = e.id) : e2 ∈ (replaceEvent db e2).events := by
  refine List.mem_map.mpr ⟨e, he, ?_⟩
  rw [if_pos (beq_iff_eq.mpr hid.symm)]

/-- Claim C6 (confirmed): deleting an existing event always succeeds, keeps
the row, clears its tag and thing associations (and only those), marks status
"deleted" and the timestamp, and excludes the event from every subsequent
event search that uses the default status filter "pending". -/
theorem c6_confirmed {db : DB} {org eid : Nat} {now : Int} {e : EventRow}
    (hfind : db.events.find? (fun x => x.id == eid && x.organization_id == org) = some e) :
    ∃ db2 e2, event_delete db org eid now = .ok (db2, e2) ∧
      e2.status = "deleted" ∧ e2.updated = now ∧ e2.id = eid ∧
      e2 ∈ db2.events ∧
      (∀ p ∈ db2.events_tags, p.1 ≠ eid) ∧
      (∀ p ∈ db2.things_events, p.2 ≠ eid) ∧
      (∀ p ∈ db.events_tags, p.1 ≠ eid → p ∈ db2.events_tags) ∧
      (∀ p ∈ db.things_events, p.2 ≠ eid → p ∈ db2.things_events) ∧
      (∀ kwE : EventFilterKw, kwE.status = "pending" →
        ∀ x ∈ apply_event_filters db2 db2.events kwE, x.id ≠ eid) := by
  have hpred := List.find?_some hfind
  have hmem := List.mem_of_find?_eq_some hfind
  rw [Bool.and_eq_true] at hpred
  have heid : e.id = eid := eq_of_beq hpred.1
  have heq : event_delete db org eid now = .ok
      (replaceEvent
        { db with
          events_tags := db.events_tags.filter fun p => !(p.1 == eid),
          things_events := db.things_events.filter fun p => !(p.2 == eid) }
        { e with status := "deleted", updated := now },
       { e with status := "deleted", updated := now }) := by
    unfold event_delete
    rw [hfind]
  refine ⟨_, _, heq, rfl, rfl, heid, ?_, ?_, ?_, ?_, ?_, ?_⟩
  · exact mem_replaceEvent_self hmem rfl
  · intro p hp
    have := (List.mem_filter.mp hp).2
    simpa using this
  · intro p hp
    have := (List.mem_filter.mp hp).2
    simpa using this
  · intro p hp hne
    exact List.mem_filter.mpr ⟨hp, by simpa using hne⟩
  · intro p hp hne
    exact List.mem_filter.mpr ⟨hp, by simpa using hne⟩
  · intro kwE hkw x hx hxid
    have hm := mem_apply_event_filters hx
    have hstat : x.status = kwE.status := by
      refine hm.2.2.1 ?_
      rw [hkw]; decide
    rw [hkw] at hstat
    have hxeq : x = { e with status := "deleted", updated := now } :=
      replaceEvent_eq_of_id hm.1 (by rw [hxid, heid])
    rw [hxeq] at hstat
    have hded : ("deleted" : String) = "pending" := hstat
    exact absurd hded (by decide)

/-- Claim C9 (confirmed): every successful event update returns an event in
the authenticated organization, and every stored row with the updated id has
that organization id - even when the request body supplied another one. -/
theorem c9_confirmed {db : DB} {org eid : Nat} {req : UpdateRequest} {now : Int}
    {db2 : DB} {e2 : EventRow}
    (h : event_update db org eid req now = .ok (db2, e2)) :
    e2.organization_id = org ∧
      ∀ x ∈ db2.events, x.id = e2.id → x.organization_id = org := by
  unfold event_update at h
  split at h
  · exact absurd h (by simp)
  · split at h
    · unfold approveBranch at h
      split at h
      · exact absurd h (by simp)
      · split at h
        · exact absurd h (by simp)
        · split at h
          · exact absurd h (by simp)
          · rw [Except.ok.injEq, Prod.mk.injEq] at h
            obtain ⟨h1, h2⟩ := h
            subst h1; subst h2
            refine ⟨rfl, ?_⟩
            intro x hx hxid
            have := replaceEvent_eq_of_id hx hxid
            rw [this]
            rfl
    · split at h
      · exact absurd h (by simp)
      · rw [Except.ok.injEq, Prod.mk.injEq] at h
        obtain ⟨h1, h2⟩ := h
        subst h1; subst h2
        refine ⟨rfl, ?_⟩
        intro x hx hxid
        have := replaceEvent_eq_of_id hx hxid
        rw [this]
        rfl

/-- Claim C10 (corrected): whenever both id lists are supplied, the approval
branch is taken, so every SUCCESSFUL such update returns status "approved"
regardless of the requested status; a non-impact zipped tag instead makes the
request fail with no status change. -/
theorem c10_amended {db : DB} {org eid : Nat} {req : UpdateRequest} {now : Int}
    {db2 : DB} {e2 : EventRow}
    (htags : req.tag_ids ≠ []) (hthings : req.thing_ids ≠ [])
    (h : event_update db org eid req now = .ok (db2, e2)) :
    e2.status = "approved" := by
  unfold event_update at h
  split at h
  · exact absurd h (by simp)
  · split at h
    · unfold approveBranch at h
      split at h
      · exact absurd h (by simp)
      · split at h
        · exact absurd h (by simp)
        · split at h
          · exact absurd h (by simp)
          · rw [Except.ok.injEq, Prod.mk.injEq] at h
            obtain ⟨h1, h2⟩ := h
            subst h2
            rfl
    · rename_i hc
      exact absurd (by simp [length_bne_zero htags, length_bne_zero hthings]) hc

theorem contentEventsAnyIn_nil {db : DB} {c : ContentItemRow} :
    contentEventsAnyIn db c [] = false := by
  simp [contentEventsAnyIn]

theorem contentScalarFilters_mem {kw : ContentFilterKw} {q : List ContentItemRow}
    {c : ContentItemRow} (h : c ∈ contentScalarFilters kw q) :
    c ∈ q ∧ c.org_id = kw.org_id ∧
    (kw.include_recipes ≠ [] → optIn c.recipe_id kw.include_recipes = true) ∧
    (kw.exclude_recipes ≠ [] → optIn c.recipe_id kw.exclude_recipes = false) := by
  unfold contentScalarFilters at h
  have hR2 := condFilter_mem h
  have hR1 := condFilter_mem hR2.1
  have hD4 := condFilter_mem hR1.1
  have hD3 := condFilter_mem hD4.1
  have hD2 := condFilter_mem hD3.1
  have hD1 := condFilter_mem hD2.1
  have hDom := condFilter_mem hD1.1
  have hRe := condFilter_mem hDom.1
  have hUrl := condFilter_mem hRe.1
  have hProv := condFilter_mem hUrl.1
  have hTy := condFilter_mem hProv.1
  have hSe := condFilter_mem hTy.1
  have hOrg := List.mem_filter.mp hSe.1
  exact ⟨hOrg.1, eq_of_beq hOrg.2,
    fun hs => hR1.2 (length_bne_zero hs),
    fun hs => optNotIn_optIn (hR2.2 (length_bne_zero hs))⟩

theorem categoriesIncludeStep_mem {db : DB} {kw : ContentFilterKw}
    {q : List ContentItemRow} {acc : List Nat} {c : ContentItemRow}
    (h : c ∈ (categoriesIncludeStep db kw q acc).1) :
    c ∈ q ∧ (kw.include_categories ≠ [] →
      contentEventsAnyIn db c (categoryEventIds db kw.org_id kw.include_categories) = true) := by
  unfold categoriesIncludeStep at h
  by_cases hc : (kw.include_categories.length != 0) = true
  · rw [if_pos hc] at h
    have h2 := List.mem_filter.mp h
    exact ⟨h2.1, fun _ => h2.2⟩
  · rw [if_neg hc] at h
    exact ⟨h, fun hs => absurd (length_bne_zero hs) hc⟩

theorem levelsIncludeStep_mem {db : DB} {kw : ContentFilterKw}
    {q : List ContentItemRow} {acc : List Nat} {c : ContentItemRow}
    (h : c ∈ (levelsIncludeStep db kw q acc).1) :
    c ∈ q ∧ (kw.include_levels ≠ [] →
      contentEventsAnyIn db c (levelEventIds db kw.org_id kw.include_levels) = true) := by
  unfold levelsIncludeStep at h
  by_cases hc : (kw.include_levels.length != 0) = true
  · rw [if_pos hc] at h
    have h2 := List.mem_filter.mp h
    exact ⟨h2.1, fun _ => h2.2⟩
  · rw [if_neg hc] at h
    exact ⟨h, fun hs => absurd (length_bne_zero hs) hc⟩

theorem categoriesExcludeStep_ok_mem {db : DB} {kw : ContentFilterKw}
    {q : List ContentItemRow} {acc : List Nat} {q2 : List ContentItemRow}
    {acc2 : List Nat} {c : ContentItemRow}
    (heq : categoriesExcludeStep db kw q acc = .ok (q2, acc2)) (h : c ∈ q2) :
    c ∈ q ∧ (kw.exclude_categories ≠ [] →
      contentEventsAnyIn db c (categoryEventIds db kw.org_id kw.exclude_categories) = true) := by
  unfold categoriesExcludeStep at heq
  by_cases hc : (kw.exclude_categories.length != 0) = true
  · rw [if_pos hc] at heq
    simp only [] at heq
    split at heq
    · rw [Except.ok.injEq, Prod.mk.injEq] at heq
      obtain ⟨hq, -⟩ := heq
      subst hq
      have h2 := List.mem_filter.mp h
      exact ⟨h2.1, fun _ => h2.2⟩
    · exact absurd heq (by simp)
  · rw [if_neg hc] at heq
    rw [Except.ok.injEq, Prod.mk.injEq] at heq
    obtain ⟨hq, -⟩ := heq
    subst hq
    exact ⟨h, fun hs => absurd (length_bne_zero hs) hc⟩

theorem levelsExcludeStep_ok_mem {db : DB} {kw : ContentFilterKw}
    {q : List ContentItemRow} {acc : List Nat} {q2 : List ContentItemRow}
    {acc2 : List Nat} {c : ContentItemRow}
    (heq : levelsExcludeStep db kw q acc = .ok (q2, acc2)) (h : c ∈ q2) :
    c ∈ q ∧ (kw.exclude_levels ≠ [] →
      contentEventsAnyIn db c (levelEventIds db kw.org_id kw.exclude_levels) = true) := by
  unfold levelsExcludeStep at heq
  by_cases hc : (kw.exclude_levels.length != 0) = true
  · rw [if_pos hc] at heq
    simp only [] at heq
    split at heq
    · rw [Except.ok.injEq, Prod.mk.injEq] at heq
      obtain ⟨hq, -⟩ := heq
      subst hq
      have h2 := List.mem_filter.mp h
      exact ⟨h2.1, fun _ => h2.2⟩
    · exact absurd heq (by simp)
  · rw [if_neg hc] at heq
    rw [Except.ok.injEq, Prod.mk.injEq] at heq
    obtain ⟨hq, -⟩ := heq
    subst hq
    exact ⟨h, fun hs => absurd (length_bne_zero hs) hc⟩

theorem contentTagFilters_mem {db : DB} {kw : ContentFilterKw}
    {q : List ContentItemRow} {c : ContentItemRow}
    (h : c ∈ contentTagFilters db kw q) :
    c ∈ q ∧ (kw.include_tags ≠ [] → contentTagsAnyIn db c kw.include_tags = true) ∧
    (kw.exclude_tags ≠ [] → contentTagsAnyIn db c kw.exclude_tags = false) := by
  unfold contentTagFilters at h
  have h2 := condFilter_mem h
  have h1 := condFilter_mem h2.1
  exact ⟨h1.1, fun hs => h1.2 (length_bne_zero hs),
    fun hs => by simpa using h2.2 (length_bne_zero hs)⟩

theorem contentSousChefFilters_mem {db : DB} {kw : ContentFilterKw}
    {q : List ContentItemRow} {c : ContentItemRow}
    (h : c ∈ contentSousChefFilters db kw q) : c ∈ q := by
  unfold contentSousChefFilters at h
  exact (condFilter_mem (condFilter_mem h).1).1

theorem mem_apply_content_item_filters {db : DB} {q : List ContentItemRow}
    {kw : ContentFilterKw} {res : List ContentItemRow} {ids : List Nat}
    {c : ContentItemRow}
    (heq : apply_content_item_filters db q kw = .ok (res, ids)) (hc : c ∈ res) :
    c ∈ q ∧ c.org_id = kw.org_id ∧
    (kw.include_recipes ≠ [] → optIn c.recipe_id kw.include_recipes = true) ∧
    (kw.exclude_recipes ≠ [] → optIn c.recipe_id kw.exclude_recipes = false) ∧
    (kw.include_tags ≠ [] → contentTagsAnyIn db c kw.include_tags = true) ∧
    (kw.exclude_tags ≠ [] → contentTagsAnyIn db c kw.exclude_tags = false) ∧
    (kw.include_categories ≠ [] →
      contentEventsAnyIn db c (categoryEventIds db kw.org_id kw.include_categories) = true) ∧
    (kw.exclude_categories ≠ [] →
      contentEventsAnyIn db c (categoryEventIds db kw.org_id kw.exclude_categories) = true) ∧
    (kw.include_levels ≠ [] →
      contentEventsAnyIn db c (levelEventIds db kw.org_id kw.include_levels) = true) ∧
    (kw.exclude_levels ≠ [] →
      contentEventsAnyIn db c (levelEventIds db kw.org_id kw.exclude_levels) = true) := by
  simp only [apply_content_item_filters] at heq
  split at heq
  · exact absurd heq (by simp)
  · rename_i s2 hce
    split at heq
    · exact absurd heq (by simp)
    · rename_i s4 hle
      rw [Except.ok.injEq, Prod.mk.injEq] at heq
      obtain ⟨hres, -⟩ := heq
      subst hres
      have h1 := contentSousChefFilters_mem hc
      have h2 := contentTagFilters_mem h1
      have h3 := levelsExcludeStep_ok_mem hle h2.1
      have h4 := levelsIncludeStep_mem h3.1
      have h5 := categoriesExcludeStep_ok_mem hce h4.1
      have h6 := categoriesIncludeStep_mem h5.1
      have h7 := contentScalarFilters_mem h6.1
      exact ⟨h7.1, h7.2.1, h7.2.2.1, h7.2.2.2, h2.2.1, h2.2.2,
        h6.2, h5.2, h4.2, h3.2⟩

/-- Claim C1 (corrected): with an exclude-categories filter but no
include-categories filter, composition is not a silent no-op. -/
theorem c1_amended {db : DB} {q : List ContentItemRow} {kw : ContentFilterKw}
    (hinc : kw.include_categories = []) (hexc : kw.exclude_categories ≠ []) :
    (categoryEventIds db kw.org_id kw.exclude_categories = [] →
      kw.include_levels = [] → kw.exclude_levels = [] →
      apply_content_item_filters db q kw = .ok ([], [])) ∧
    (∀ k rest, categoryEventIds db kw.org_id kw.exclude_categories = k :: rest →
      apply_content_item_filters db q kw = .error (.keyError k)) := by
  have hs1 : categoriesIncludeStep db kw (contentScalarFilters kw q) [] =
      (contentScalarFilters kw q, []) := by
    simp [categoriesIncludeStep, hinc]
  constructor
  · intro hres hincl hexcl
    have hs2 : categoriesExcludeStep db kw (contentScalarFilters kw q) [] = .ok ([], []) := by
      unfold categoriesExcludeStep
      rw [if_pos (length_bne_zero hexc), hres]
      simp [pySetRemoveAll, contentEventsAnyIn_nil]
    have hs3 : levelsIncludeStep db kw [] [] = ([], []) := by
      simp [levelsIncludeStep, hincl]
    have hs4 : levelsExcludeStep db kw [] [] = .ok ([], []) := by
      simp [levelsExcludeStep, hexcl]
    simp only [apply_content_item_filters, hs1, hs2, hs3, hs4]
    simp [contentTagFilters, contentSousChefFilters, condFilter_nil]
  · intro k rest hres
    have hs2 : categoriesExcludeStep db kw (contentScalarFilters kw q) [] =
        .error (.keyError k) := by
      unfold categoriesExcludeStep
      rw [if_pos (length_bne_zero hexc), hres]
      rfl
    simp only [apply_content_item_filters, hs1, hs2]

/-- Claim C1 counterexample. -/
theorem c1_counterexample :
    apply_content_item_filters dbFilters [ci50] kwExclX = .error (.keyError 100) ∧
    apply_content_item_filters dbFilters [ci50] emptyContentKw = .ok ([ci50], []) :=
  ⟨rfl, rfl⟩

/-- Claim C1 witness. -/
theorem c1_witness :
    kwExclY.include_categories = [] ∧ kwExclY.exclude_categories = ["Y"] ∧
    apply_content_item_filters dbFilters [ci50] kwExclY = .ok ([], []) := by
  refine ⟨rfl, rfl, ?_⟩
  exact (c1_amended rfl (by decide)).1 rfl rfl rfl

/-- Claim C2 (corrected): direct inclusion and exclusion filters behave as the
spec states, but the indirect category/level exclusions on content items apply
a positive association restriction. -/
theorem c2_amended (db : DB) (qE : List EventRow) (qC : List ContentItemRow)
    (kwE : EventFilterKw) (kwC : ContentFilterKw) :
    (∀ e ∈ apply_event_filters db qE kwE,
      (kwE.include_tags ≠ [] → eventTagsAnyIn db e kwE.include_tags = true) ∧
      (kwE.exclude_tags ≠ [] → eventTagsAnyIn db e kwE.exclude_tags = false) ∧
      (kwE.include_things ≠ [] → eventThingsAnyIn db e kwE.include_things = true) ∧
      (kwE.exclude_things ≠ [] → eventThingsAnyIn db e kwE.exclude_things = false) ∧
      (kwE.include_recipes ≠ [] → optIn e.recipe_id kwE.include_recipes = true) ∧
      (kwE.exclude_recipes ≠ [] → optIn e.recipe_id kwE.exclude_recipes = false)) ∧
    (∀ res ids, apply_content_item_filters db qC kwC = .ok (res, ids) →
      ∀ c ∈ res,
        (kwC.include_tags ≠ [] → contentTagsAnyIn db c kwC.include_tags = true) ∧
        (kwC.exclude_tags ≠ [] → contentTagsAnyIn db c kwC.exclude_tags = false) ∧
        (kwC.include_recipes ≠ [] → optIn c.recipe_id kwC.include_recipes = true) ∧
        (kwC.exclude_recipes ≠ [] → optIn c.recipe_id kwC.exclude_recipes = false) ∧
        (kwC.include_categories ≠ [] →
          contentEventsAnyIn db c (categoryEventIds db kwC.org_id kwC.include_categories) = true) ∧
        (kwC.exclude_categories ≠ [] →
          contentEventsAnyIn db c (categoryEventIds db kwC.org_id kwC.exclude_categories) = true) ∧
        (kwC.include_levels ≠ [] →
          contentEventsAnyIn db c (levelEventIds db kwC.org_id kwC.include_levels) = true) ∧
        (kwC.exclude_levels ≠ [] →
          contentEventsAnyIn db c (levelEventIds db kwC.org_id kwC.exclude_levels) = true)) := by
  constructor
  · intro e he
    have hm := mem_apply_event_filters he
    exact ⟨hm.2.2.2.2.2.1, hm.2.2.2.2.2.2.1, hm.2.2.2.2.2.2.2.1,
      hm.2.2.2.2.2.2.2.2, hm.2.2.2.1, hm.2.2.2.2.1⟩
  · intro res ids heq c hc
    have hm := mem_apply_content_item_filters heq hc
    exact ⟨hm.2.2.2.2.1, hm.2.2.2.2.2.1, hm.2.2.1, hm.2.2.2.1,
      hm.2.2.2.2.2.2.1, hm.2.2.2.2.2.2.2.1, hm.2.2.2.2.2.2.2.2.1,
      hm.2.2.2.2.2.2.2.2.2⟩

/-- Claim C2 counterexample. -/
theorem c2_counterexample :
    apply_content_item_filters dbFilters [ci50] kwInclExclX = .ok ([ci50], []) ∧
    contentAssocCategory dbFilters ci50 "X" = true := ⟨rfl, rfl⟩

/-- Claim C2 witness. -/
theorem c2_witness :
    evPending ∈ apply_event_filters dbFilters [evPending] kwEvTag1 ∧
    eventTagsAnyIn dbFilters evPending [1] = true := by
  refine ⟨by decide, ?_⟩
  have h := (c2_amended dbFilters [evPending] [] kwEvTag1 emptyContentKw).1
    evPending (by decide)
  exact h.1 (by decide)

/-- Claim C5 (confirmed): requesting "approved" on a non-approved event
without both a non-empty tag id list and a non-empty thing id list fails with
an error before any setattr or commit, so the event is unchanged. -/
theorem c5_confirmed {db : DB} {org eid : Nat} {req : UpdateRequest} {now : Int}
    {e : EventRow}
    (hfind : db.events.find? (fun x => x.id == eid && x.organization_id == org) = some e)
    (hst : e.status ≠ "approved")
    (hreq : req.status = some "approved")
    (hids : req.tag_ids = [] ∨ req.thing_ids = []) :
    event_update db org eid req now = .error (.requestError
      "To approve an event you must assign it to one or more Things or Tags by using the \"thing_ids\" and \"tag_ids\" fields.") := by
  have h1 : (req.tag_ids.length != 0 && req.thing_ids.length != 0) = false := by
    rcases hids with h | h <;> simp [h]
  have h2 : (e.status != "approved" && req.status == some "approved") = true := by
    simp [hreq, bne_iff_ne.mpr hst]
  simp only [event_update, hfind]
  rw [h1, h2]
  simp

/-- Claim C5 witness. -/
theorem c5_witness :
    event_update dbW9 1 100 reqW5 5 = .error (.requestError
      "To approve an event you must assign it to one or more Things or Tags by using the \"thing_ids\" and \"tag_ids\" fields.") :=
  c5_confirmed rfl (by decide) rfl (Or.inl rfl)

/-- Claim C9 witness. -/
theorem c9_witness :
    reqW9.organization_id = some 999 ∧ evW9res.organization_id = 1 := by
  refine ⟨rfl, ?_⟩
  exact (c9_confirmed (show event_update dbW9 1 100 reqW9 5 = .ok (dbW9res, evW9res)
    from rfl)).1

/-- Claim C6 witness. -/
theorem c6_witness :
    ∃ s : DB × EventRow, event_delete dbPendingTagged 1 100 5 = .ok s ∧
      s.2.status = "deleted" ∧ ∀ p ∈ s.1.events_tags, p.1 ≠ 100 := by
  obtain ⟨db2, e2, heq, hst, -, -, -, hcl, -, -, -, -⟩ := c6_confirmed
    (show dbPendingTagged.events.find?
      (fun x => x.id == 100 && x.organization_id == 1) = some evPending from rfl)
  exact ⟨(db2, e2), heq, hst, hcl⟩

/-- Claim C10 witness. -/
theorem c10_witness :
    reqW10.status = some "pending" ∧ evW10res.status = "approved" := by
  refine ⟨rfl, ?_⟩
  exact c10_amended (by decide) (by decide)
    (show event_update dbW4 1 100 reqW10 5 = .ok (dbW10res, evW10res) from rfl)

/-- Claim C10 counterexample. -/
theorem c10_counterexample :
    (dbC10.tags.any fun t => t.id == 2) = true ∧
    (dbC10.things.any fun t => t.id == 10) = true ∧
    event_update dbC10 1 100 reqC10 5 =
      .error (.requestError "Events can only be assigned Impact Tags.") :=
  ⟨rfl, rfl, rfl⟩

/-- Claim C7 (corrected): the add endpoints require approved status, but the
delete endpoints check only whether the association exists. -/
theorem c7_amended {db : DB} {org eid tid thid : Nat} {now : Int} {e : EventRow}
    (hfind : db.events.find? (fun x => x.id == eid && x.organization_id == org) = some e)
    (hst : e.status ≠ "approved") :
    event_add_tag db org eid tid now = .error (.requestError
      "You must first approve an Event before adding additional Tags.") ∧
    event_add_thing db org eid thid now = .error (.requestError
      "You must first approve an Event before adding additional Things.") ∧
    ((event_tag_ids db eid).contains tid = true →
      updateOk (event_delete_tag db org eid tid now) = true) ∧
    ((event_tag_ids db eid).contains tid = false →
      event_delete_tag db org eid tid now = .error (.requestError
        ("An Event with ID " ++ toString eid ++
          " does not currently have an association with a Tag with ID " ++
          toString tid))) ∧
    ((event_thing_ids db eid).contains thid = true →
      updateOk (event_delete_thing db org eid thid now) = true) ∧
    ((event_thing_ids db eid).contains thid = false →
      event_delete_thing db org eid thid now = .error (.requestError
        ("An Event with ID " ++ toString eid ++
          " does not currently have an association with a Thing with ID " ++
          toString thid))) := by
  refine ⟨?_, ?_, ?_, ?_, ?_, ?_⟩
  · simp only [event_add_tag, hfind]
    rw [if_pos (bne_iff_ne.mpr hst)]
  · simp only [event_add_thing, hfind]
    rw [if_pos (bne_iff_ne.mpr hst)]
  · intro hmem
    simp only [event_delete_tag, hfind, hmem]
    simp [updateOk]
  · intro hmem
    simp only [event_delete_tag, hfind, hmem]
    simp
  · intro hmem
    simp only [event_delete_thing, hfind, hmem]
    simp [updateOk]
  · intro hmem
    simp only [event_delete_thing, hfind, hmem]
    simp

/-- Claim C7 counterexample. -/
theorem c7_counterexample :
    (dbPendingTagged.events.all fun e => e.status != "approved") = true ∧
    updateOk (event_delete_tag dbPendingTagged 1 100 1 5) = true := ⟨rfl, rfl⟩

/-- Claim C7 witness. -/
theorem c7_witness :
    event_add_tag dbPendingTagged 1 100 1 5 = .error (.requestError
      "You must first approve an Event before adding additional Tags.") ∧
    updateOk (event_delete_tag dbPendingTagged 1 100 1 5) = true := by
  have h := @c7_amended dbPendingTagged 1 100 1 1 5 evPending rfl (by decide)
  exact ⟨h.1, h.2.2.1 rfl⟩

/-- Claim C8 (code bug): the not-found branch of `content_items` formats the
unbound name `event_id`, raising a `NameError` instead of the intended
`NotFoundError` naming the requested content item id. -/
theorem c8_code_bug :
    (dbC8.content_items.all fun c => !(c.id == 7)) = true ∧
    content_items dbC8 1 7 = .error (.nameError "event_id") := ⟨rfl, rfl⟩

theorem length_beq_zero_false {α : Type} {l : List α} (h : l ≠ []) :
    (l.length == 0) = false := by
  cases l with
  | nil => exact absurd rfl h
  | cons a t => rfl

theorem assocLoop_error_of_bad (db : DB) (eid : Nat) :
    ∀ (pairs : List (ThingRow × TagRow)) (ths tgs : List Nat),
      (∃ p ∈ pairs, p.2.type ≠ "impact") →
      assocLoop db eid pairs ths tgs =
        .error (.requestError "Events can only be assigned Impact Tags.") := by
  intro pairs
  induction pairs with
  | nil =>
    intro ths tgs hbad
    obtain ⟨p, hp, -⟩ := hbad
    cases hp
  | cons hd rest ih =>
    intro ths tgs hbad
    obtain ⟨thing, tag⟩ := hd
    simp only [assocLoop]
    by_cases hc : (tag.type != "impact") = true
    · rw [if_pos hc]
    · rw [if_neg hc]
      apply ih
      obtain ⟨p, hp, hbadp⟩ := hbad
      rcases List.mem_cons.mp hp with heq | hmem
      · exfalso
        exact hc (bne_iff_ne.mpr (by rw [heq] at hbadp; exact hbadp))
      · exact ⟨p, hmem, hbadp⟩

theorem pySetAppend_mem {s ev : List Nat} {x t : Nat} :
    (t ∈ (if (ev ++ s).contains x then s else s ++ [x])) ↔
      (t ∈ s ∨ (t = x ∧ x ∉ ev ∧ x ∉ s)) := by
  by_cases hc : ((ev ++ s).contains x) = true
  · rw [if_pos hc]
    have hx : x ∈ ev ∨ x ∈ s := by simpa [List.mem_append] using hc
    constructor
    · exact Or.inl
    · rintro (h | ⟨rfl, hnev, hns⟩)
      · exact h
      · rcases hx with h2 | h2
        · exact absurd h2 hnev
        · exact absurd h2 hns
  · rw [if_neg hc]
    have hx : ¬(x ∈ ev ∨ x ∈ s) := by simpa [List.mem_append] using hc
    push_neg at hx
    constructor
    · intro hmem
      rcases List.mem_append.mp hmem with h | h
      · exact Or.inl h
      · have h2 : t = x := by simpa using h
        exact Or.inr ⟨h2, hx.1, hx.2⟩
    · rintro (h | ⟨rfl, -, -⟩)
      · exact List.mem_append.mpr (Or.inl h)
      · exact List.mem_append.mpr (Or.inr (by simp))

theorem pySetAppend_nodup {s ev : List Nat} {x : Nat} (h : s.Nodup) :
    (if (ev ++ s).contains x then s else s ++ [x]).Nodup := by
  by_cases hc : ((ev ++ s).contains x) = true
  · rw [if_pos hc]; exact h
  · rw [if_neg hc]
    have hx : ¬(x ∈ ev ∨ x ∈ s) := by simpa [List.mem_append] using hc
    push_neg at hx
    refine List.Nodup.append h (List.nodup_singleton x) ?_
    intro a ha hax
    have h2 : a = x := by simpa using hax
    subst h2
    exact hx.2 ha

theorem assocLoop_ok_spec (db : DB) (eid : Nat) :
    ∀ (pairs : List (ThingRow × TagRow)) (ths tgs : List Nat),
      (∀ p ∈ pairs, p.2.type = "impact") →
      ∃ nt ng, assocLoop db eid pairs ths tgs = .ok (nt, ng) ∧
        (∀ t, t ∈ ng ↔ (t ∈ tgs ∨ (t ∈ pairs.map (fun p => p.2.id) ∧
          t ∉ event_tag_ids db eid))) ∧
        (tgs.Nodup → ng.Nodup) ∧
        (∀ t, t ∈ nt ↔ (t ∈ ths ∨ (t ∈ pairs.map (fun p => p.1.id) ∧
          t ∉ event_thing_ids db eid))) ∧
        (ths.Nodup → nt.Nodup) := by
  intro pairs
  induction pairs with
  | nil =>
    intro ths tgs _
    exact ⟨ths, tgs, rfl, by simp, fun h => h, by simp, fun h => h⟩
  | cons hd rest ih =>
    intro ths tgs himp
    obtain ⟨thing, tag⟩ := hd
    have htag : tag.type = "impact" := himp (thing, tag) (List.mem_cons_self _ _)
    obtain ⟨nt, ng, hrec, hngmem, hngnd, hntmem, hntnd⟩ :=
      ih (if (event_thing_ids db eid ++ ths).contains thing.id then ths
          else ths ++ [thing.id])
        (if (event_tag_ids db eid ++ tgs).contains tag.id then tgs
          else tgs ++ [tag.id])
        (fun p hp => himp p (List.mem_cons_of_mem _ hp))
    refine ⟨nt, ng, ?_, ?_, ?_, ?_, ?_⟩
    · simp only [assocLoop]
      rw [if_neg (by simp [htag])]
      exact hrec
    · intro t
      rw [hngmem t, pySetAppend_mem]
      simp only [List.map_cons, List.mem_cons]
      constructor
      · rintro ((h | ⟨rfl, hnev, hns⟩) | ⟨hm, hnev⟩)
        · exact Or.inl h
        · exact Or.inr ⟨Or.inl rfl, hnev⟩
        · exact Or.inr ⟨Or.inr hm, hnev⟩
      · rintro (h | ⟨(rfl | hm), hnev⟩)
        · exact Or.inl (Or.inl h)
        · by_cases hts : tag.id ∈ tgs
          · exact Or.inl (Or.inl hts)
          · exact Or.inl (Or.inr ⟨rfl, hnev, hts⟩)
        · exact Or.inr ⟨hm, hnev⟩
    · exact fun h => hngnd (pySetAppend_nodup h)
    · intro t
      rw [hntmem t, pySetAppend_mem]
      simp only [List.map_cons, List.mem_cons]
      constructor
      · rintro ((h | ⟨rfl, hnev, hns⟩) | ⟨hm, hnev⟩)
        · exact Or.inl h
        · exact Or.inr ⟨Or.inl rfl, hnev⟩
        · exact Or.inr ⟨Or.inr hm, hnev⟩
      · rintro (h | ⟨(rfl | hm), hnev⟩)
        · exact Or.inl (Or.inl h)
        · by_cases hts : thing.id ∈ ths
          · exact Or.inl (Or.inl hts)
          · exact Or.inl (Or.inr ⟨rfl, hnev, hts⟩)
        · exact Or.inr ⟨hm, hnev⟩
    · exact fun h => hntnd (pySetAppend_nodup h)

theorem mem_event_tag_ids {db : DB} {eid a : Nat} :
    a ∈ event_tag_ids db eid ↔
      ((eid, a) ∈ db.events_tags ∧ (db.tags.any fun t => t.id == a) = true) := by
  unfold event_tag_ids
  constructor
  · intro h
    rcases List.mem_map.mp h with ⟨p, hp, hpa⟩
    obtain ⟨p1, p2⟩ := p
    rcases List.mem_filter.mp hp with ⟨hmem, hcond⟩
    rw [Bool.and_eq_true] at hcond
    have h1 : p1 = eid := eq_of_beq hcond.1
    have h2 : p2 = a := hpa
    subst h1; subst h2
    exact ⟨hmem, hcond.2⟩
  · rintro ⟨hmem, hany⟩
    refine List.mem_map.mpr ⟨(eid, a), List.mem_filter.mpr ⟨hmem, ?_⟩, rfl⟩
    simp [hany]

theorem mem_event_thing_ids {db : DB} {eid a : Nat} :
    a ∈ event_thing_ids db eid ↔
      ((a, eid) ∈ db.things_events ∧ (db.things.any fun t => t.id == a) = true) := by
  unfold event_thing_ids
  constructor
  · intro h
    rcases List.mem_map.mp h with ⟨p, hp, hpa⟩
    obtain ⟨p1, p2⟩ := p
    rcases List.mem_filter.mp hp with ⟨hmem, hcond⟩
    rw [Bool.and_eq_true] at hcond
    have h1 : p2 = eid := eq_of_beq hcond.1
    have h2 : p1 = a := hpa
    subst h1; subst h2
    exact ⟨hmem, hcond.2⟩
  · rintro ⟨hmem, hany⟩
    refine List.mem_map.mpr ⟨(a, eid), List.mem_filter.mpr ⟨hmem, ?_⟩, rfl⟩
    simp [hany]

theorem countP_pair_fst (e t : Nat) (l : List Nat) :
    l.countP (fun s => ((e, s) : Nat × Nat) == (e, t)) = l.count t := by
  unfold List.count
  apply List.countP_congr
  intro s hs
  rw [show (((e, s) : Nat × Nat) == (e, t)) = (e == e && s == t) from rfl]
  simp

theorem countP_pair_snd (e t : Nat) (l : List Nat) :
    l.countP (fun s => ((s, e) : Nat × Nat) == (t, e)) = l.count t := by
  unfold List.count
  apply List.countP_congr
  intro s hs
  rw [show (((s, e) : Nat × Nat) == (t, e)) = (s == t && e == e) from rfl]
  simp

/-- Claim C3 (corrected): the approval fails on a non-impact tag only when it
is among the zipped pairs. -/
theorem c3_amended {db : DB} {org eid : Nat} {req : UpdateRequest} {now : Int}
    {e : EventRow}
    (hfind : db.events.find? (fun x => x.id == eid && x.organization_id == org) = some e)
    (htags : req.tag_ids ≠ []) (hthings : req.thing_ids ≠ [])
    (htagsne : reqTags db req ≠ []) (hthingsne : reqThings db req ≠ [])
    (hbad : ∃ p ∈ (reqThings db req).zip (reqTags db req), p.2.type ≠ "impact") :
    event_update db org eid req now =
      .error (.requestError "Events can only be assigned Impact Tags.") := by
  simp only [event_update, hfind]
  rw [if_pos (by simp [length_bne_zero htags, length_bne_zero hthings])]
  unfold approveBranch
  rw [if_neg (by simp [length_beq_zero_false htagsne]),
    if_neg (by simp [length_beq_zero_false hthingsne]),
    assocLoop_error_of_bad db e.id ((reqThings db req).zip (reqTags db req)) [] [] hbad]

/-- Claim C3 counterexample. -/
theorem c3_counterexample :
    (dbC3.tags.any fun t => t.id == 2 && t.type != "impact") = true ∧
    reqC3.tag_ids = [1, 2] ∧
    event_update dbC3 1 100 reqC3 5 = .ok (dbC3res, evC3res) ∧
    evC3res.status = "approved" := ⟨rfl, rfl, rfl, rfl⟩

/-- Claim C3 witness. -/
theorem c3_witness :
    event_update dbW3 1 100 reqW3 5 =
      .error (.requestError "Events can only be assigned Impact Tags.") :=
  c3_amended rfl (by decide) (by decide) (by decide) (by decide)
    ⟨(thing10, tagOther), by decide, by decide⟩

/-- Claim C4 (corrected): a successful approval associates exactly the zipped
thing/tag pairs, skipping already-associated ids without duplication. -/
theorem c4_amended {db : DB} {org eid : Nat} {req : UpdateRequest} {now : Int}
    {e : EventRow}
    (hfind : db.events.find? (fun x => x.id == eid && x.organization_id == org) = some e)
    (htags : req.tag_ids ≠ []) (hthings : req.thing_ids ≠ [])
    (htagsne : reqTags db req ≠ []) (hthingsne : reqThings db req ≠ [])
    (himp : ∀ p ∈ (reqThings db req).zip (reqTags db req), p.2.type = "impact") :
    ∃ db2 e2, event_update db org eid req now = .ok (db2, e2) ∧
      e2.status = "approved" ∧ e2.updated = now ∧ e2.id = eid ∧ e2 ∈ db2.events ∧
      (∀ p ∈ (reqThings db req).zip (reqTags db req),
        p.1.id ∈ event_thing_ids db2 eid ∧ p.2.id ∈ event_tag_ids db2 eid) ∧
      (∀ t : Nat, db2.events_tags.countP (fun r => r == (eid, t)) =
        db.events_tags.countP (fun r => r == (eid, t)) +
          (if t ∈ ((reqThings db req).zip (reqTags db req)).map (fun p => p.2.id) ∧
              t ∉ event_tag_ids db eid then 1 else 0)) ∧
      (∀ t : Nat, db2.things_events.countP (fun r => r == (t, eid)) =
        db.things_events.countP (fun r => r == (t, eid)) +
          (if t ∈ ((reqThings db req).zip (reqTags db req)).map (fun p => p.1.id) ∧
              t ∉ event_thing_ids db eid then 1 else 0)) := by
  have hpred := List.find?_some hfind
  rw [Bool.and_eq_true] at hpred
  have heid : e.id = eid := eq_of_beq hpred.1
  subst heid
  have hmem : e ∈ db.events := List.mem_of_find?_eq_some hfind
  obtain ⟨nt, ng, hloop, hngmem, hngnd, hntmem, hntnd⟩ :=
    assocLoop_ok_spec db e.id ((reqThings db req).zip (reqTags db req)) [] [] himp
  have hngmem2 : ∀ t, t ∈ ng ↔
      (t ∈ ((reqThings db req).zip (reqTags db req)).map (fun p => p.2.id) ∧
        t ∉ event_tag_ids db e.id) := by
    intro t
    rw [hngmem t]
    simp
  have hntmem2 : ∀ t, t ∈ nt ↔
      (t ∈ ((reqThings db req).zip (reqTags db req)).map (fun p => p.1.id) ∧
        t ∉ event_thing_ids db e.id) := by
    intro t
    rw [hntmem t]
    simp
  have hngnd2 : ng.Nodup := hngnd List.nodup_nil
  have hntnd2 : nt.Nodup := hntnd List.nodup_nil
  refine ⟨{ replaceEvent db (overrideOrg (setattrApprove e req now) org) with
      events_tags := db.events_tags ++ ng.map fun t => (e.id, t)
      things_events := db.things_events ++ nt.map fun t => (t, e.id) },
    overrideOrg (setattrApprove e req now) org, ?_, rfl, rfl, rfl, ?_, ?_, ?_, ?_⟩
  · simp only [event_update, hfind]
    rw [if_pos (by simp [length_bne_zero htags, length_bne_zero hthings])]
    unfold approveBranch
    rw [if_neg (by simp [length_beq_zero_false htagsne]),
      if_neg (by simp [length_beq_zero_false hthingsne]), hloop]
  · exact mem_replaceEvent_self hmem rfl
  · intro p hp
    obtain ⟨pth, ptg⟩ := p
    obtain ⟨hth, htg⟩ := List.of_mem_zip hp
    have hthdb : pth ∈ db.things := (List.mem_filter.mp hth).1
    have htgdb : ptg ∈ db.tags := (List.mem_filter.mp htg).1
    constructor
    · rw [mem_event_thing_ids]
      constructor
      · show (pth.id, e.id) ∈ db.things_events ++ nt.map fun t => (t, e.id)
        by_cases hin : pth.id ∈ event_thing_ids db e.id
        · exact List.mem_append.mpr (Or.inl (mem_event_thing_ids.mp hin).1)
        · have hnt : pth.id ∈ nt := (hntmem2 pth.id).mpr
            ⟨List.mem_map.mpr ⟨(pth, ptg), hp, rfl⟩, hin⟩
          exact List.mem_append.mpr (Or.inr (List.mem_map.mpr ⟨pth.id, hnt, rfl⟩))
      · show (db.things.any fun t => t.id == pth.id) = true
        exact List.any_eq_true.mpr ⟨pth, hthdb, by simp⟩
    · rw [mem_event_tag_ids]
      constructor
      · show (e.id, ptg.id) ∈ db.events_tags ++ ng.map fun t => (e.id, t)
        by_cases hin : ptg.id ∈ event_tag_ids db e.id
        · exact List.mem_append.mpr (Or.inl (mem_event_tag_ids.mp hin).1)
        · have hng : ptg.id ∈ ng := (hngmem2 ptg.id).mpr
            ⟨List.mem_map.mpr ⟨(pth, ptg), hp, rfl⟩, hin⟩
          exact List.mem_append.mpr (Or.inr (List.mem_map.mpr ⟨ptg.id, hng, rfl⟩))
      · show (db.tags.any fun t => t.id == ptg.id) = true
        exact List.any_eq_true.mpr ⟨ptg, htgdb, by simp⟩
  · intro t
    show (db.events_tags ++ ng.map fun s => (e.id, s)).countP (fun r => r == (e.id, t)) = _
    rw [List.countP_append]
    congr 1
    rw [List.countP_map]
    rw [show ((fun r => r == ((e.id, t) : Nat × Nat)) ∘ fun s => ((e.id, s) : Nat × Nat)) =
      fun s => ((e.id, s) : Nat × Nat) == (e.id, t) from rfl]
    rw [countP_pair_fst]
    by_cases hc : t ∈ ((reqThings db req).zip (reqTags db req)).map (fun p => p.2.id) ∧
        t ∉ event_tag_ids db e.id
    · rw [if_pos hc, List.count_eq_one_of_mem hngnd2 ((hngmem2 t).mpr hc)]
    · rw [if_neg hc, List.count_eq_zero_of_not_mem (fun hm => hc ((hngmem2 t).mp hm))]
  · intro t
    show (db.things_events ++ nt.map fun s => (s, e.id)).countP (fun r => r == (t, e.id)) = _
    rw [List.countP_append]
    congr 1
    rw [List.countP_map]
    rw [show ((fun r => r == ((t, e.id) : Nat × Nat)) ∘ fun s => ((s, e.id) : Nat × Nat)) =
      fun s => ((s, e.id) : Nat × Nat) == (t, e.id) from rfl]
    rw [countP_pair_snd]
    by_cases hc : t ∈ ((reqThings db req).zip (reqTags db req)).map (fun p => p.1.id) ∧
        t ∉ event_thing_ids db e.id
    · rw [if_pos hc, List.count_eq_one_of_mem hntnd2 ((hntmem2 t).mpr hc)]
    · rw [if_neg hc, List.count_eq_zero_of_not_mem (fun hm => hc ((hntmem2 t).mp hm))]

/-- Claim C4 counterexample. -/
theorem c4_counterexample :
    reqC4.thing_ids = [10, 11] ∧ (dbC4.things.any fun t => t.id == 11) = true ∧
    event_update dbC4 1 100 reqC4 5 = .ok (dbC4res, evC4res) ∧
    (event_thing_ids dbC4res 100).contains 11 = false := ⟨rfl, rfl, rfl, rfl⟩

/-- Claim C4 witness. -/
theorem c4_witness :
    ∃ s : DB × EventRow, event_update dbW4 1 100 reqW4 5 = .ok s ∧
      s.2.status = "approved" ∧ 10 ∈ event_thing_ids s.1 100 ∧
      1 ∈ event_tag_ids s.1 100 := by
  obtain ⟨db2, e2, heq, hst, -, -, -, hassoc, -, -⟩ :=
    @c4_amended dbW4 1 100 reqW4 5 evPending rfl (by decide) (by decide) (by decide)
      (by decide) (by decide)
  have h10 := hassoc (thing10, tagImpact) (by decide)
  exact ⟨(db2, e2), heq, hst, h10.1, h10.2⟩

end Newslynx
